import Mathlib

/-!
Verification development for the sdl3-gpu-minimal repository.

The definitions below are shallow embeddings of the C++ source:
pure data (mesh generation, offset computation, angle update) becomes Lean
functions; the GPU command recording done by the per-frame draw functions
becomes explicit command traces (lists of constructors mirroring the SDL
calls that are issued); machine integers are Nat with explicit reduction
modulo 2 ^ 32 where the source casts to uint32_t.
-/

/-! ## Cube mesh generation

Two generators exist in the repository.  `src/src/main.cpp` (app::make_cube)
lists the 36 indices literally with the per-face pattern 0,1,2, 2,3,0.
`src/sdl3-min-src.cpp` (app::make_cube) generates them from the per-face
pattern 0,1,2, 0,2,3 offset by 4 * face via a cartesian product of the six
face indices with the base pattern.  Both use 24 vertices (4 per face).
-/

/-- Number of vertices produced by both cube generators (6 faces x 4). -/
def cube_vertex_count : Nat := 24

/-- Index list of app::make_cube in src/src/main.cpp: a literal list of 36
entries, per-face pattern 0,1,2, 2,3,0 shifted by 4 per face. -/
def make_cube_indices_literal : List Nat :=
  [0, 1, 2, 2, 3, 0,
   4, 5, 6, 6, 7, 4,
   8, 9, 10, 10, 11, 8,
   12, 13, 14, 14, 15, 12,
   16, 17, 18, 18, 19, 16,
   20, 21, 22, 22, 23, 20]

/-- Base pattern face_0 of app::make_cube in src/sdl3-min-src.cpp. -/
def cube_face_0 : List Nat := [0, 1, 2, 0, 2, 3]

/-- Index list of app::make_cube in src/sdl3-min-src.cpp: cartesian product
of the six face indices with cube_face_0, each entry shifted by 4 * face. -/
def make_cube_indices_ranges : List Nat :=
  (List.range 6).flatMap (fun f => cube_face_0.map (fun v => v + f * 4))

/-- Group a flat index list into consecutive index triples (triangles). -/
def triangles : List Nat → List (Nat × Nat × Nat)
  | a :: b :: c :: rest => (a, b, c) :: triangles rest
  | _ => []

/-- The three cyclic rotations of an index triple. -/
def cyclicRotations : Nat × Nat × Nat → List (Nat × Nat × Nat)
  | (a, b, c) => [(a, b, c), (b, c, a), (c, a, b)]

/-! ## Camera angle update

app::update in src/src/main.cpp exists in two variants (the file holds two
stages of the tutorial).  The first reacts to A/D, the second also to the
arrow keys.  Both subtract 0.5 per left key, add 0.5 per right key, and
then reset the angle to 0 when it reaches 360 or -360 in magnitude.
The float angle is embedded as a rational; every constant involved
(0.5, 360) is exactly representable, so the comparisons agree.
-/

/-- Angle update of app::update, first variant in src/src/main.cpp
(keys A and D only). -/
def app_update_angle (key_a key_d : Bool) (angle : ℚ) : ℚ :=
  let a1 := if key_a then angle - 1 / 2 else angle
  let a2 := if key_d then a1 + 1 / 2 else a1
  if 360 ≤ a2 ∨ a2 ≤ -360 then 0 else a2

/-- Angle update of app::update, second variant in src/src/main.cpp
(keys A/LEFT and D/RIGHT). -/
def app_update_angle_arrows (key_a key_left key_d key_right : Bool) (angle : ℚ) : ℚ :=
  let a1 := if key_a || key_left then angle - 1 / 2 else angle
  let a2 := if key_d || key_right then a1 + 1 / 2 else a1
  if 360 ≤ a2 ∨ a2 ≤ -360 then 0 else a2

/-! ## GPU command traces

The per-frame draw functions record a fixed sequence of SDL GPU calls into
a command buffer.  The trace of calls is embedded as a list of
constructors; handles (buffers, textures, samplers, pipelines) are
identified by natural numbers.
-/

/-- One recorded SDL GPU call.  Constructors mirror the SDL functions used
by the draw and upload paths of the repository. -/
inductive GpuCmd where
  | acquireCmdBuffer
  | pushVertexUniformData (slot size : Nat)
  | acquireSwapchainTexture
  | beginRenderPass (hasDepthTarget : Bool)
  | bindVertexBuffers (firstSlot : Nat) (bindings : List (Nat × Nat))
  | bindIndexBuffer32 (buffer offset : Nat)
  | bindFragmentSamplers (firstSlot texture sampler : Nat)
  | bindGraphicsPipeline (p : Nat)
  | drawIndexedPrimitives (numIndices numInstances firstIndex vertexOffset firstInstance : Nat)
  | drawPrimitives (numVertices numInstances firstVertex firstInstance : Nat)
  | endRenderPass
  | submitCmdBuffer
deriving DecidableEq, Repr

/-- Instance-count argument of every draw call in a trace, in order. -/
def drawInstanceCounts (t : List GpuCmd) : List Nat :=
  t.filterMap fun c =>
    match c with
    | .drawIndexedPrimitives _ n _ _ _ => some n
    | .drawPrimitives _ n _ _ => some n
    | _ => none

/-! ## The textured-quad stage (src/unnamed/part_007)

frame::frame_context of part_007 holds one pipeline, a vertex and an index
buffer with their element counts, and the grid texture.  frame::draw
acquires a command buffer, acquires the swapchain image, begins a render
pass with no depth target, binds one vertex buffer at slot 0, binds the
index buffer as 32-bit, binds the pipeline, and issues one indexed draw
whose instance count is the literal 16.
-/

/-- Frame state of the textured-quad stage (frame::frame_context in
src/unnamed/part_007). -/
structure quad_frame_context where
  pipeline : Nat
  vertex_buffer : Nat
  index_buffer : Nat
  vertex_count : Nat
  index_count : Nat
  grid_texture : Nat

/-- Command trace of frame::draw in src/unnamed/part_007. -/
def quad_draw (r : quad_frame_context) : List GpuCmd :=
  [.acquireCmdBuffer,
   .acquireSwapchainTexture,
   .beginRenderPass false,
   .bindVertexBuffers 0 [(r.vertex_buffer, 0)],
   .bindIndexBuffer32 r.index_buffer 0,
   .bindGraphicsPipeline r.pipeline,
   .drawIndexedPrimitives r.index_count 16 0 0 0,
   .endRenderPass,
   .submitCmdBuffer]

/-! ## The one-shot uploader (src/unnamed/part_008, sdl3::upload_to_gpu)

upload_to_gpu packs four payloads (vertices, indices, instances, texture
pixel data) into one transfer buffer sized to the sum of the four byte
sizes (cast to uint32_t), memcpys them back to back, and then records one
copy pass: three buffer uploads whose source offsets accumulate the
previously copied sizes (uint32 arithmetic), and one texture upload per
sub-image at the running offset plus the sub-image's own byte offset.
-/

/-- Reduction modulo 2 ^ 32, the effect of a cast to uint32_t. -/
def u32 (n : Nat) : Nat := n % 2 ^ 32

/-- Sub-image descriptor (io::image_data::sub_image): one layer/mip pair
with its byte offset into the pixel-data buffer and its dimensions. -/
structure sub_image where
  layer_index : Nat
  mipmap_index : Nat
  offset : Nat
  width : Nat
  height : Nat
deriving DecidableEq, Repr

/-- One recorded copy-pass call of the uploader. -/
inductive CopyCmd where
  | uploadToBuffer (srcOffset dstBuffer dstOffset size : Nat)
  | uploadToTexture (srcOffset layer mip w h : Nat)
deriving DecidableEq, Repr

/-- Transfer-buffer size computed by sdl3::upload_to_gpu: the sum of the
four payload byte sizes, cast to uint32_t. -/
def upload_to_gpu_tb_size (vsz isz instsz texsz : Nat) : Nat :=
  u32 (vsz + isz + instsz + texsz)

/-- Copy-pass trace of sdl3::upload_to_gpu.  The running source offset
starts at 0 and accumulates each buffer region size (each a uint32_t cast
of the payload size); each texture sub-image is read at the running offset
plus the sub-image's own offset (cast to uint32_t). -/
def upload_to_gpu_trace (vb ib instb : Nat) (vsz isz instsz : Nat)
    (subs : List sub_image) : List CopyCmd :=
  let o0 : Nat := 0
  let o1 : Nat := u32 (o0 + u32 vsz)
  let o2 : Nat := u32 (o1 + u32 isz)
  let o3 : Nat := u32 (o2 + u32 instsz)
  [.uploadToBuffer o0 vb 0 (u32 vsz),
   .uploadToBuffer o1 ib 0 (u32 isz),
   .uploadToBuffer o2 instb 0 (u32 instsz)] ++
    subs.map (fun s =>
      .uploadToTexture (u32 (o3 + u32 s.offset))
        s.layer_index s.mipmap_index s.width s.height)

/-- Source offset of each copy-pass call, in order. -/
def copySrcOffsets (t : List CopyCmd) : List Nat :=
  t.map fun c =>
    match c with
    | .uploadToBuffer o _ _ _ => o
    | .uploadToTexture o _ _ _ _ => o

/-- Offsets re-derived from the payload sizes alone, as running sums:
vertices at 0, indices after the vertices, instances after the indices,
each texture sub-image after the instances plus its own offset. -/
def rederived_offsets (vsz isz instsz : Nat) (subs : List sub_image) : List Nat :=
  [0, vsz, vsz + isz] ++ subs.map (fun s => vsz + isz + instsz + s.offset)

/-! ## The sampler stage (src/sdl3-min-src.cpp)

frame::frame_context holds six samplers selected by active_sampler;
frame::draw binds the selected sampler together with the grid texture and
issues one indexed-instanced draw; app::update rewrites only the
active_sampler field from the digit keys 1-6.
-/

/-- Frame state of the sampler stage (frame::frame_context in
src/sdl3-min-src.cpp).  active_sampler indexes the array of six samplers. -/
structure sampler_frame_context where
  depth_texture : Nat
  pipeline : Nat
  vertex_buffer : Nat
  index_buffer : Nat
  instance_buffer : Nat
  vertex_count : Nat
  index_count : Nat
  instance_count : Nat
  grid_texture : Nat
  samplers : Fin 6 → Nat
  active_sampler : Fin 6
  view_proj_size : Nat

/-- Command trace of frame::draw in src/sdl3-min-src.cpp. -/
def sampler_draw (r : sampler_frame_context) : List GpuCmd :=
  [.acquireCmdBuffer,
   .acquireSwapchainTexture,
   .beginRenderPass true,
   .pushVertexUniformData 0 r.view_proj_size,
   .bindVertexBuffers 0 [(r.vertex_buffer, 0), (r.instance_buffer, 0)],
   .bindIndexBuffer32 r.index_buffer 0,
   .bindFragmentSamplers 0 r.grid_texture (r.samplers r.active_sampler),
   .bindGraphicsPipeline r.pipeline,
   .drawIndexedPrimitives r.index_count r.instance_count 0 0 0,
   .endRenderPass,
   .submitCmdBuffer]

/-- Digit-key states read by app::update in src/sdl3-min-src.cpp. -/
structure sampler_keys where
  key1 : Bool
  key2 : Bool
  key3 : Bool
  key4 : Bool
  key5 : Bool
  key6 : Bool

/-- New active-sampler value computed by app::update: the first pressed
digit key among 1..6 selects sampler 0..5, otherwise the value is kept. -/
def app_update_active_sampler (k : sampler_keys) (prev : Fin 6) : Fin 6 :=
  if k.key1 then 0
  else if k.key2 then 1
  else if k.key3 then 2
  else if k.key4 then 3
  else if k.key5 then 4
  else if k.key6 then 5
  else prev

/-- app::update of src/sdl3-min-src.cpp: rewrites the active_sampler field
of the frame state and nothing else (the logging branch has no effect on
the state). -/
def app_update_sampler (k : sampler_keys) (r : sampler_frame_context) :
    sampler_frame_context :=
  { r with active_sampler := app_update_active_sampler k r.active_sampler }

/-- Erase the sampler handle of a fragment-sampler binding; the identity on
every other command. -/
def eraseSamplerHandle : GpuCmd → GpuCmd
  | .bindFragmentSamplers slot tex _ => .bindFragmentSamplers slot tex 0
  | c => c

/-! ## The scene stage (src/unnamed/part_008, sdl3::draw)

sdl3::scene holds two pipelines (mesh and grid), the three buffers with
their counts, the depth texture and the uv texture/sampler pair.
sdl3::draw acquires a command buffer, pushes the view-projection bytes as
vertex-stage uniform data, block-wait acquires the swapchain image, begins
a render pass with a depth-stencil target, binds both vertex buffers
starting at slot 0 (slot 0 per-vertex, slot 1 per-instance), binds the
index buffer as 32-bit, binds the uv texture/sampler pair, binds pipeline
0 and issues one indexed-instanced draw, binds pipeline 1 and issues one
non-indexed 6-vertex draw for the grid, ends the pass and submits.
-/

/-- Scene state of the refactored stage (sdl3::scene in
src/unnamed/part_008).  Handles are natural numbers; the clear color is
irrelevant to the recorded trace and is kept as four rationals. -/
structure scene where
  clear_color : ℚ × ℚ × ℚ × ℚ
  pipelines : List Nat
  vertex_buffer : Nat
  index_buffer : Nat
  instance_buffer : Nat
  vertex_count : Nat
  index_count : Nat
  instance_count : Nat
  depth_texture : Nat
  uv_texture : Nat
  uv_sampler : Nat

/-- Command trace of sdl3::draw in src/unnamed/part_008. -/
def scene_draw (scn : scene) (view_proj_size : Nat) : List GpuCmd :=
  [.acquireCmdBuffer,
   .pushVertexUniformData 0 view_proj_size,
   .acquireSwapchainTexture,
   .beginRenderPass true,
   .bindVertexBuffers 0 [(scn.vertex_buffer, 0), (scn.instance_buffer, 0)],
   .bindIndexBuffer32 scn.index_buffer 0,
   .bindFragmentSamplers 0 scn.uv_texture scn.uv_sampler,
   .bindGraphicsPipeline (scn.pipelines.getD 0 0),
   .drawIndexedPrimitives scn.index_count scn.instance_count 0 0 0,
   .bindGraphicsPipeline (scn.pipelines.getD 1 0),
   .drawPrimitives 6 1 0 0,
   .endRenderPass,
   .submitCmdBuffer]

/-- Draw-call recognizer. -/
def isDraw : GpuCmd → Bool
  | .drawIndexedPrimitives _ _ _ _ _ => true
  | .drawPrimitives _ _ _ _ => true
  | _ => false

/-- State machine over a trace: tracks whether a render pass is open,
rejects a begin inside an open pass, an end outside one, and any draw call
outside an open pass. -/
def drawsInsidePassAux : Bool → List GpuCmd → Bool
  | _, [] => true
  | inPass, c :: rest =>
    match c with
    | .beginRenderPass _ => !inPass && drawsInsidePassAux true rest
    | .endRenderPass => inPass && drawsInsidePassAux false rest
    | .drawIndexedPrimitives _ _ _ _ _ => inPass && drawsInsidePassAux inPass rest
    | .drawPrimitives _ _ _ _ => inPass && drawsInsidePassAux inPass rest
    | _ => drawsInsidePassAux inPass rest

/-- Whole-trace well-formedness: starts outside a render pass. -/
def drawsInsidePass (t : List GpuCmd) : Bool := drawsInsidePassAux false t

/-! ## Context initialization (src/src/sdl3-init.cppm, sdl3::init_context)

Every fallible native call is checked by msg::error, which on failure
prints a diagnostic (message plus the backend last-error string from
SDL_GetError) and aborts via assert.  The environment records which native
calls succeed; the embedding returns the list of native calls made and
either the abort diagnostic or the fully initialized context.  The call
order of sdl3::init_context is SDL_Init, SDL_CreateWindow,
SDL_CreateGPUDevice, SDL_ClaimWindowForGPUDevice.
-/

/-- Outcome of each fallible native call, plus the backend's last-error
string reported by SDL_GetError. -/
structure sdl_env where
  init_video_ok : Bool
  create_window_ok : Bool
  create_gpu_ok : Bool
  claim_window_ok : Bool
  last_error : String

/-- Native calls made by sdl3::init_context. -/
inductive SdlCall where
  | initVideo
  | createWindow
  | createGpuDevice
  | claimWindowForGpuDevice
deriving DecidableEq, Repr

/-- Fully initialized context (sdl3::context): a window handle, a GPU
device handle, and the window claimed by the device. -/
structure context where
  window : Nat
  gpu : Nat
  claimed : Bool

/-- Result of initialization: a diagnostic followed by process abort, or a
context. -/
inductive init_result where
  | aborted (diagnostic : String)
  | ok (ctx : context)

/-- Embedding of sdl3::init_context in src/src/sdl3-init.cppm: each native
call is made once and checked immediately; the first failure prints a
diagnostic carrying the backend's last-error string and aborts. -/
def init_context (env : sdl_env) (_width _height : Nat) (_title : String) :
    List SdlCall × init_result :=
  if !env.init_video_ok then
    ([.initVideo], .aborted ("SDL could not initialize." ++ env.last_error))
  else if !env.create_window_ok then
    ([.initVideo, .createWindow],
      .aborted ("Window could not be created." ++ env.last_error))
  else if !env.create_gpu_ok then
    ([.initVideo, .createWindow, .createGpuDevice],
      .aborted ("Could not get GPU device." ++ env.last_error))
  else if !env.claim_window_ok then
    ([.initVideo, .createWindow, .createGpuDevice, .claimWindowForGpuDevice],
      .aborted ("Could not claim window for gpu." ++ env.last_error))
  else
    ([.initVideo, .createWindow, .createGpuDevice, .claimWindowForGpuDevice],
      .ok { window := 1, gpu := 1, claimed := true })

/-! ## Decoded image sub-image layout (io::read_image_file)

io::read_image_file (src/src/io.cppm and src/sdl3-min-src.cpp) parses a
DDS/KTX file with the external dds-ktx decoder, builds one sub-image
descriptor per (layer, mip) pair of the cartesian product of the layer and
mip ranges — the descriptor offset is the decoder's sub-data pointer minus
the file base pointer minus the header size (data_offset) — and strips
the header bytes from the pixel-data buffer.  The decoder itself is an
external collaborator; its layout is modelled from the spec below.
-/

/-- Number of 4x4 compression blocks covering n texels (at least one), as
used by block-compressed (BC1..BC7) formats. -/
def blockCount (n : Nat) : Nat := max 1 ((n + 3) / 4)

/-- Dimension of mip level mip of a full dimension n: halved per level,
never below one texel. -/
def mipDim (n mip : Nat) : Nat := max 1 (n / 2 ^ mip)

/-- Byte size of the (layer-independent) sub-image at mip level mip of a
block-compressed image of blockBytes bytes per block. -/
def sub_image_byte_size (blockBytes w h mip : Nat) : Nat :=
  blockBytes * (blockCount (mipDim w mip) * blockCount (mipDim h mip))

/-- Byte sizes of the mip chain of one layer, mip 0 first. -/
def mip_chain_sizes (blockBytes w h mips : Nat) : List Nat :=
  (List.range mips).map (fun m => sub_image_byte_size blockBytes w h m)

/-- Modelled from the spec: the external dds-ktx decoder
(ddsktx_get_sub, not under src/) lays the sub-images out contiguously
after the container header, layer-major (all mips of layer 0, then all
mips of layer 1, ...), so the byte offset of pair (l, m) inside the
pixel-data region is l whole layers plus the sizes of the mips before m. -/
def ddsktx_sub_offset (blockBytes w h mips l m : Nat) : Nat :=
  l * (mip_chain_sizes blockBytes w h mips).sum +
    ((mip_chain_sizes blockBytes w h mips).take m).sum

/-- Modelled from the spec: total length of the pixel-data buffer returned
by read_image_file (the file minus the container header): all layers back
to back. -/
def image_pixel_data_size (blockBytes w h layers mips : Nat) : Nat :=
  layers * (mip_chain_sizes blockBytes w h mips).sum

/-- Sub-image list built by read_image_file: one descriptor per (layer,
mip) pair of the cartesian product, whose offset is the decoder's absolute
position (data_offset plus the layout offset) minus data_offset, exactly
as the subtraction in the source computes it. -/
def read_image_sub_images (blockBytes w h layers mips data_offset : Nat) :
    List sub_image :=
  (List.range layers).flatMap fun l =>
    (List.range mips).map fun m =>
      { layer_index := l
        mipmap_index := m
        offset :=
          data_offset + ddsktx_sub_offset blockBytes w h mips l m - data_offset
        width := mipDim w m
        height := mipDim h m }

/-- Byte span read when uploading a sub-image region: the block-compressed
size derived from the descriptor's stored dimensions. -/
def sub_image_span (blockBytes : Nat) (s : sub_image) : Nat :=
  blockBytes * (blockCount s.width * blockCount s.height)

/-! ## The vertex-buffer triangle stage

The spec's end-to-end scenario exercises the triangle stage: initialize
the context at 1920x1080, upload a 3-vertex, 0-index triangle with fixed
RGB vertex colors, run one draw.  The C++ main of that stage is not under
src/ (only its shader sources are); its frame state and draw are modelled
from the spec below.  The three vertex colors are the ones of the
raw-triangle shader (src/raw_triangle.vs.hlsl): red, green, blue.
-/

/-- The 3 triangle vertices as (position, color) pairs, positions and RGBA
colors taken from the vertex list of src/raw_triangle.vs.hlsl. -/
def triangle_vertices : List ((ℚ × ℚ × ℚ) × (ℚ × ℚ × ℚ × ℚ)) :=
  [((-1, -1, 0), (1, 0, 0, 1)),
   ((1, -1, 0), (0, 1, 0, 1)),
   ((0, 1, 0), (0, 0, 1, 1))]

/-- Modelled from the spec: frame state of the triangle stage (whose C++
main is not under src/): one pipeline, one vertex buffer, the uploaded
vertex and index counts. -/
structure triangle_frame_context where
  pipeline : Nat
  vertex_buffer : Nat
  vertex_count : Nat
  index_count : Nat

/-- Modelled from the spec: initializing the triangle stage uploads the 3
vertices and 0 indices. -/
def triangle_frame_init (pipeline vertex_buffer : Nat) :
    triangle_frame_context :=
  { pipeline := pipeline
    vertex_buffer := vertex_buffer
    vertex_count := triangle_vertices.length
    index_count := 0 }

/-- Modelled from the spec: the triangle-stage per-frame draw — acquire the
command buffer, acquire the swapchain image, begin the render pass, bind
one vertex buffer at slot 0, bind the pipeline, issue one non-indexed draw
of vertex_count vertices and 1 instance, end the pass, submit. -/
def triangle_draw (r : triangle_frame_context) : List GpuCmd :=
  [.acquireCmdBuffer,
   .acquireSwapchainTexture,
   .beginRenderPass false,
   .bindVertexBuffers 0 [(r.vertex_buffer, 0)],
   .bindGraphicsPipeline r.pipeline,
   .drawPrimitives r.vertex_count 1 0 0,
   .endRenderPass,
   .submitCmdBuffer]

/-- First-slot and bindings arguments of a vertex-buffer bind command. -/
def bindVertexBuffersArgs : GpuCmd → Option (Nat × List (Nat × Nat))
  | .bindVertexBuffers slot bs => some (slot, bs)
  | _ => none

/-- Environment in which every native initialization call succeeds. -/
def all_ok_env : sdl_env :=
  { init_video_ok := true
    create_window_ok := true
    create_gpu_ok := true
    claim_window_ok := true
    last_error := "" }

/-- End-to-end run of the triangle scenario: initialize the context at
1920x1080 and record the single per-frame draw; none if initialization
aborts. -/
def triangle_end_to_end (env : sdl_env) : Option (List GpuCmd) :=
  match (init_context env 1920 1080 "SDL3 GPU minimal example.").2 with
  | .aborted _ => none
  | .ok _ => some (triangle_draw (triangle_frame_init 0 1))

/-- The reset step keeps any rational strictly inside (-360, 360). -/
theorem reset_step_bounded (x : ℚ) :
    -360 < (if 360 ≤ x ∨ x ≤ -360 then (0 : ℚ) else x) ∧
      (if 360 ≤ x ∨ x ≤ -360 then (0 : ℚ) else x) < 360 := by
  split_ifs with h
  · norm_num
  · push_neg at h
    exact ⟨by linarith [h.2], by linarith [h.1]⟩

/-! ## Theorems for the claims settled so far -/

/-- C2: both cube generators produce 36 indices (a multiple of 3, i.e.
twelve whole triangles) over 24 vertices, every index lies in
[0, vertex_count), and for each of the six faces the corresponding six
indices (two triangles) reference only that face's four vertices. -/
theorem make_cube_index_list_ok :
    (∀ i ∈ make_cube_indices_literal, i < cube_vertex_count) ∧
    (∀ i ∈ make_cube_indices_ranges, i < cube_vertex_count) ∧
    make_cube_indices_literal.length = 36 ∧
    make_cube_indices_ranges.length = 36 ∧
    make_cube_indices_literal.length % 3 = 0 ∧
    make_cube_indices_ranges.length % 3 = 0 ∧
    (∀ f < 6, ∀ i ∈ (make_cube_indices_literal.drop (6 * f)).take 6,
      4 * f ≤ i ∧ i < 4 * f + 4) ∧
    (∀ f < 6, ∀ i ∈ (make_cube_indices_ranges.drop (6 * f)).take 6,
      4 * f ≤ i ∧ i < 4 * f + 4) := by
  decide

/-- C10: the literal 36-entry index list and the ranges-based generator
produce the same twelve triangles up to cyclic rotation of each index
triple (hence the same winding order), both over 24 vertices. -/
theorem make_cube_generators_equiv :
    make_cube_indices_literal.length = 36 ∧
    make_cube_indices_ranges.length = 36 ∧
    cube_vertex_count = 24 ∧
    (triangles make_cube_indices_literal).length = 12 ∧
    (triangles make_cube_indices_ranges).length = 12 ∧
    (∀ p ∈ (triangles make_cube_indices_literal).zip
        (triangles make_cube_indices_ranges),
      p.1 ∈ cyclicRotations p.2) := by
  decide

/-- C9: after app::update (either variant), the camera angle lies strictly
within (-360, 360), for every input angle, including values outside the
normal range: the update moves the angle by 0.5 per pressed key and then
resets it to 0 whenever its magnitude reaches or exceeds 360. -/
theorem app_update_angle_bounded (ka kd kl kr : Bool) (angle : ℚ) :
    (-360 < app_update_angle ka kd angle ∧
      app_update_angle ka kd angle < 360) ∧
    (-360 < app_update_angle_arrows ka kl kd kr angle ∧
      app_update_angle_arrows ka kl kd kr angle < 360) := by
  refine ⟨?_, ?_⟩
  · exact reset_step_bounded _
  · exact reset_step_bounded _

/-- C7: in the textured-quad stage (src/unnamed/part_007), the only draw
call of frame::draw passes the literal 16 as instance count, for every
frame state, independent of the frame state's counts and buffers. -/
theorem quad_draw_instance_count_is_16 (r : quad_frame_context) :
    drawInstanceCounts (quad_draw r) = [16] := by
  rfl

/-- C1: the transfer-buffer size computed by sdl3::upload_to_gpu equals the
exact sum of the four payload sizes, and the source offsets of the copy
pass are the running sums of those sizes: vertices at 0, indices after the
vertices, instances after the indices, and each texture sub-image after
the instances plus its own offset — re-deriving the offsets from the sizes
reproduces the offsets actually used (the uint32_t casts are exact as long
as the total payload fits a uint32_t and each sub-image offset is bounded
by the texture payload size). -/
theorem upload_to_gpu_offsets_exact (vb ib instb vsz isz instsz texsz : Nat)
    (subs : List sub_image)
    (hsum : vsz + isz + instsz + texsz < 2 ^ 32)
    (hsub : ∀ s ∈ subs, s.offset ≤ texsz) :
    upload_to_gpu_tb_size vsz isz instsz texsz = vsz + isz + instsz + texsz ∧
    copySrcOffsets (upload_to_gpu_trace vb ib instb vsz isz instsz subs) =
      rederived_offsets vsz isz instsz subs := by
  have hv : vsz % 2 ^ 32 = vsz := Nat.mod_eq_of_lt (by omega)
  have hi : isz % 2 ^ 32 = isz := Nat.mod_eq_of_lt (by omega)
  have hn : instsz % 2 ^ 32 = instsz := Nat.mod_eq_of_lt (by omega)
  have hvi : (vsz + isz) % 2 ^ 32 = vsz + isz := Nat.mod_eq_of_lt (by omega)
  have hvin : (vsz + isz + instsz) % 2 ^ 32 = vsz + isz + instsz :=
    Nat.mod_eq_of_lt (by omega)
  refine ⟨Nat.mod_eq_of_lt hsum, ?_⟩
  simp only [upload_to_gpu_trace, copySrcOffsets, rederived_offsets, u32,
    Nat.zero_add, hv, hi, hn, hvi, hvin, List.map_append, List.map_map,
    List.map_cons, List.map_nil, List.cons_append, List.nil_append,
    List.cons.injEq, true_and]
  refine List.map_congr_left (fun s hs => ?_)
  have h1 : s.offset % 2 ^ 32 = s.offset :=
    Nat.mod_eq_of_lt (by have := hsub s hs; omega)
  simp only [Function.comp, h1]
  exact Nat.mod_eq_of_lt (by have := hsub s hs; omega)

/-- C1 witness: a concrete instantiation with all four payloads nonempty
and two texture sub-images. -/
theorem upload_to_gpu_offsets_exact_witness :
    (8 + 12 + 4 + 6 < 2 ^ 32 ∧
      ∀ s ∈ [sub_image.mk 0 0 0 4 4, sub_image.mk 0 1 4 2 2], s.offset ≤ 6) ∧
    (upload_to_gpu_tb_size 8 12 4 6 = 8 + 12 + 4 + 6 ∧
      copySrcOffsets (upload_to_gpu_trace 10 11 12 8 12 4
          [sub_image.mk 0 0 0 4 4, sub_image.mk 0 1 4 2 2]) =
        rederived_offsets 8 12 4
          [sub_image.mk 0 0 0 4 4, sub_image.mk 0 1 4 2 2]) :=
  ⟨⟨by decide, by decide⟩,
    upload_to_gpu_offsets_exact 10 11 12 8 12 4 6
      [sub_image.mk 0 0 0 4 4, sub_image.mk 0 1 4 2 2]
      (by decide) (by decide)⟩

/-- C4: for any two sampler indices, the draw traces of frame::draw differ
only in the sampler handle of the fragment-sampler binding (after erasing
that one handle the traces are equal, so vertex buffers, index buffer,
texture, pipeline and all draw arguments are identical); the sampler bound
is the one selected by active_sampler; and app::update rewrites only the
active_sampler field of the frame state. -/
theorem sampler_toggle_changes_only_sampler (r : sampler_frame_context)
    (i j : Fin 6) (k : sampler_keys) :
    ((sampler_draw { r with active_sampler := i }).map eraseSamplerHandle =
      (sampler_draw { r with active_sampler := j }).map eraseSamplerHandle) ∧
    (sampler_draw r)[6]? =
      some (.bindFragmentSamplers 0 r.grid_texture
        (r.samplers r.active_sampler)) ∧
    (app_update_sampler k r).depth_texture = r.depth_texture ∧
    (app_update_sampler k r).pipeline = r.pipeline ∧
    (app_update_sampler k r).vertex_buffer = r.vertex_buffer ∧
    (app_update_sampler k r).index_buffer = r.index_buffer ∧
    (app_update_sampler k r).instance_buffer = r.instance_buffer ∧
    (app_update_sampler k r).vertex_count = r.vertex_count ∧
    (app_update_sampler k r).index_count = r.index_count ∧
    (app_update_sampler k r).instance_count = r.instance_count ∧
    (app_update_sampler k r).grid_texture = r.grid_texture ∧
    (app_update_sampler k r).samplers = r.samplers ∧
    (app_update_sampler k r).view_proj_size = r.view_proj_size :=
  ⟨rfl, rfl, rfl, rfl, rfl, rfl, rfl, rfl, rfl, rfl, rfl, rfl, rfl⟩

/-- C5: sdl3::draw records the fixed sequence — acquire the command
buffer, push the per-frame uniform data, acquire the swapchain image,
begin the render pass; inside it bind the vertex and instance buffers at
slots 0 and 1, bind the 32-bit index buffer, bind the texture/sampler
pair, and issue exactly two draw calls (one indexed-instanced, one
non-indexed 6-vertex grid draw); then end the pass and submit.  Every draw
happens inside the open render pass and there are never more than two. -/
theorem scene_draw_sequence_ok (scn : scene) (vps : Nat) :
    (scene_draw scn vps).take 4 =
      [.acquireCmdBuffer, .pushVertexUniformData 0 vps,
       .acquireSwapchainTexture, .beginRenderPass true] ∧
    (scene_draw scn vps)[4]? =
      some (.bindVertexBuffers 0
        [(scn.vertex_buffer, 0), (scn.instance_buffer, 0)]) ∧
    (scene_draw scn vps)[5]? = some (.bindIndexBuffer32 scn.index_buffer 0) ∧
    (scene_draw scn vps)[6]? =
      some (.bindFragmentSamplers 0 scn.uv_texture scn.uv_sampler) ∧
    (scene_draw scn vps).filter isDraw =
      [.drawIndexedPrimitives scn.index_count scn.instance_count 0 0 0,
       .drawPrimitives 6 1 0 0] ∧
    ((scene_draw scn vps).filter isDraw).length = 2 ∧
    drawsInsidePass (scene_draw scn vps) = true ∧
    (scene_draw scn vps).drop 11 = [.endRenderPass, .submitCmdBuffer] := by
  refine ⟨?_, ?_, ?_, ?_, ?_, ?_, ?_, ?_⟩ <;> rfl

/-- C6: sdl3::init_context either returns a fully initialized context
(window, device, window claimed) with all four native calls having
succeeded, or aborts with a diagnostic that carries the backend's
last-error string; it never returns a partially initialized context and
never retries a native call (the call trace has no duplicates). -/
theorem init_context_all_or_abort (env : sdl_env) (w h : Nat) (t : String) :
    (init_context env w h t).1.Nodup ∧
    (match (init_context env w h t).2 with
     | .ok ctx =>
        ctx.claimed = true ∧ env.init_video_ok = true ∧
          env.create_window_ok = true ∧ env.create_gpu_ok = true ∧
          env.claim_window_ok = true
     | .aborted d =>
        (env.init_video_ok = false ∨ env.create_window_ok = false ∨
          env.create_gpu_ok = false ∨ env.claim_window_ok = false) ∧
          ∃ m, d = m ++ env.last_error) := by
  obtain ⟨iv, cw, cg, cl, le⟩ := env
  cases iv <;> cases cw <;> cases cg <;> cases cl <;>
    simp [init_context, List.Nodup] <;> exact ⟨_, rfl⟩

/-- Sum of n copies of a list sums to n times the list sum. -/
theorem flatMap_const_sum (n : Nat) (L : List Nat) :
    ((List.range n).flatMap (fun _ => L)).sum = n * L.sum := by
  induction n with
  | zero => simp
  | succ k ih =>
      simp [List.range_succ, List.flatMap_append, ih, Nat.succ_mul]

/-- Every sub-image byte size is positive when the block size is. -/
theorem sub_image_byte_size_pos (blockBytes w h mip : Nat)
    (hb : 1 ≤ blockBytes) : 1 ≤ sub_image_byte_size blockBytes w h mip := by
  have h1 : 1 ≤ blockCount (mipDim w mip) := le_max_left 1 _
  have h2 : 1 ≤ blockCount (mipDim h mip) := le_max_left 1 _
  calc 1 = 1 * (1 * 1) := by norm_num
    _ ≤ blockBytes * (blockCount (mipDim w mip) * blockCount (mipDim h mip)) :=
        Nat.mul_le_mul hb (Nat.mul_le_mul h1 h2)

/-- The layout offset of pair (l, m) plus that sub-image's size stays
within the pixel-data region. -/
theorem ddsktx_sub_offset_add_size_le (blockBytes w h layers mips l m : Nat)
    (hl : l < layers) (hm : m < mips) :
    ddsktx_sub_offset blockBytes w h mips l m +
        sub_image_byte_size blockBytes w h m ≤
      image_pixel_data_size blockBytes w h layers mips := by
  have hmLen : m < (mip_chain_sizes blockBytes w h mips).length := by
    simpa [mip_chain_sizes] using hm
  have hget : (mip_chain_sizes blockBytes w h mips)[m] =
      sub_image_byte_size blockBytes w h m := by
    simp [mip_chain_sizes]
  have h1 : ((mip_chain_sizes blockBytes w h mips).take m).sum +
      sub_image_byte_size blockBytes w h m =
      ((mip_chain_sizes blockBytes w h mips).take (m + 1)).sum := by
    rw [List.sum_take_succ _ m hmLen, hget]
  have h2 : ((mip_chain_sizes blockBytes w h mips).take (m + 1)).sum ≤
      (mip_chain_sizes blockBytes w h mips).sum := by
    have := List.sum_take_add_sum_drop (mip_chain_sizes blockBytes w h mips) (m + 1)
    omega
  have h3 : l * (mip_chain_sizes blockBytes w h mips).sum +
      (mip_chain_sizes blockBytes w h mips).sum ≤
      layers * (mip_chain_sizes blockBytes w h mips).sum := by
    have h4 : (l + 1) * (mip_chain_sizes blockBytes w h mips).sum ≤
        layers * (mip_chain_sizes blockBytes w h mips).sum :=
      Nat.mul_le_mul_right _ (Nat.succ_le_of_lt hl)
    calc l * (mip_chain_sizes blockBytes w h mips).sum +
          (mip_chain_sizes blockBytes w h mips).sum
        = (l + 1) * (mip_chain_sizes blockBytes w h mips).sum := by ring
      _ ≤ layers * (mip_chain_sizes blockBytes w h mips).sum := h4
  calc ddsktx_sub_offset blockBytes w h mips l m +
        sub_image_byte_size blockBytes w h m
      = l * (mip_chain_sizes blockBytes w h mips).sum +
        (((mip_chain_sizes blockBytes w h mips).take m).sum +
          sub_image_byte_size blockBytes w h m) := by
        simp [ddsktx_sub_offset, Nat.add_assoc]
    _ = l * (mip_chain_sizes blockBytes w h mips).sum +
        ((mip_chain_sizes blockBytes w h mips).take (m + 1)).sum := by rw [h1]
    _ ≤ l * (mip_chain_sizes blockBytes w h mips).sum +
        (mip_chain_sizes blockBytes w h mips).sum := Nat.add_le_add_left h2 _
    _ ≤ layers * (mip_chain_sizes blockBytes w h mips).sum := h3
    _ = image_pixel_data_size blockBytes w h layers mips := rfl

/-- C3: for every sub-image built by read_image_file, the byte offset is
strictly within the pixel-data buffer, the byte span starting there stays
inside the buffer, and the sum of all declared spans does not exceed the
buffer length (spec-modelled layout for the external dds-ktx decoder;
block-compressed formats have a positive block size). -/
theorem read_image_file_sub_images_bounded
    (blockBytes w h layers mips data_offset : Nat) (hb : 1 ≤ blockBytes) :
    (∀ s ∈ read_image_sub_images blockBytes w h layers mips data_offset,
      s.offset < image_pixel_data_size blockBytes w h layers mips ∧
        s.offset + sub_image_span blockBytes s ≤
          image_pixel_data_size blockBytes w h layers mips) ∧
    ((read_image_sub_images blockBytes w h layers mips data_offset).map
        (sub_image_span blockBytes)).sum ≤
      image_pixel_data_size blockBytes w h layers mips := by
  constructor
  · intro s hs
    simp only [read_image_sub_images, List.mem_flatMap, List.mem_map,
      List.mem_range] at hs
    obtain ⟨l, hl, m, hm, rfl⟩ := hs
    have hoff : data_offset + ddsktx_sub_offset blockBytes w h mips l m -
        data_offset = ddsktx_sub_offset blockBytes w h mips l m := by omega
    have hle := ddsktx_sub_offset_add_size_le blockBytes w h layers mips l m hl hm
    have hpos := sub_image_byte_size_pos blockBytes w h m hb
    have hspan : ∀ off, sub_image_span blockBytes
        { layer_index := l, mipmap_index := m, offset := off,
          width := mipDim w m, height := mipDim h m } =
        sub_image_byte_size blockBytes w h m := fun _ => rfl
    simp only [hoff, hspan]
    omega
  · have hmap : (read_image_sub_images blockBytes w h layers mips
        data_offset).map (sub_image_span blockBytes) =
        (List.range layers).flatMap
          (fun _ => mip_chain_sizes blockBytes w h mips) := by
      simp only [read_image_sub_images, List.map_flatMap, List.map_map]
      rfl
    rw [hmap, flatMap_const_sum]
    exact le_refl _

/-- C3 witness: a concrete two-layer, two-mip, 8-byte-block image. -/
theorem read_image_file_sub_images_bounded_witness :
    1 ≤ 8 ∧
    ((∀ s ∈ read_image_sub_images 8 8 8 2 2 128,
      s.offset < image_pixel_data_size 8 8 8 2 2 ∧
        s.offset + sub_image_span 8 s ≤ image_pixel_data_size 8 8 8 2 2) ∧
    ((read_image_sub_images 8 8 8 2 2 128).map (sub_image_span 8)).sum ≤
      image_pixel_data_size 8 8 8 2 2) :=
  ⟨by decide, read_image_file_sub_images_bounded 8 8 8 2 2 128 (by decide)⟩

/-- C8: in the end-to-end triangle scenario — context initialized at
1920x1080, the 3-vertex 0-index triangle with fixed RGB colors uploaded —
one draw produces a render pass that binds exactly one vertex buffer at
slot 0 and issues one non-indexed draw of exactly 3 vertices and 1
instance, inside the open render pass. -/
theorem triangle_end_to_end_ok :
    triangle_vertices.length = 3 ∧
    (triangle_frame_init 0 1).index_count = 0 ∧
    triangle_end_to_end all_ok_env =
      some (triangle_draw (triangle_frame_init 0 1)) ∧
    (triangle_draw (triangle_frame_init 0 1)).filterMap bindVertexBuffersArgs =
      [(0, [(1, 0)])] ∧
    (triangle_draw (triangle_frame_init 0 1)).filter isDraw =
      [.drawPrimitives 3 1 0 0] ∧
    drawsInsidePass (triangle_draw (triangle_frame_init 0 1)) = true := by
  decide
